import Mathlib

/-!
Verification of the conversational session layer of the rsh-whatsapp-chatbot
backend: a shallow embedding of the idempotency cache and bot gate of the
`/ask` handler (`app.py`), the thread registry (`assistant_thread_manager.py`),
the admin reply handler (`admin_routes.py`), and the run orchestrator
(`openai_assistant_pipeline.py`), together with theorems about them.

Modelling conventions:
- Python dicts over string keys are association lists `List (String × α)`;
  the `OrderedDict` request cache keeps its insertion order in the list order
  (head = oldest entry).
- Remote HTTP interactions are oracles supplied through an `Env` structure,
  indexed by call number where a call site can fire several times.
- Wall-clock time is an explicit `Nat` parameter (seconds for the cache TTL).
  Inside the run-polling loop, time is measured in quarter seconds so that the
  float arithmetic of the source (intervals 2, 3, 4.5, 5 seconds, growth
  factor 1.5) is represented exactly by naturals (8, 12, 18, 20 quarters);
  every float value reachable in the source is dyadic, so nothing is lost.
- Python string truthiness (`if not s:`) is `pyTruthy`; `str.strip` is
  `pyStrip`; substring containment (`pat in s`) is `pyContains`.
-/

/-! ## Python string primitives -/

/-- Python truthiness of an optional string: `None` and `""` are falsy. -/
def pyTruthy : Option String → Bool
  | none => false
  | some s => !(s == "")

/-- Substring test on char lists: does `pat` occur inside `l`?  Models the
Python `pat in s` operator for nonempty `pat`. -/
def listContainsSub (pat : List Char) : List Char → Bool
  | [] => pat.isEmpty
  | c :: rest => pat.isPrefixOf (c :: rest) || listContainsSub pat rest

/-- Python `pat in s` on strings. -/
def pyContains (s pat : String) : Bool :=
  listContainsSub pat.data s.data

/-- Everything before the first '@' (Python `s.split('@')[0]`). -/
def takeUntilAt : List Char → List Char
  | [] => []
  | c :: rest => if c = '@' then [] else c :: takeUntilAt rest

/-- Python `s.split('@')[0]` on strings. -/
def takeBeforeAt (s : String) : String :=
  String.mk (takeUntilAt s.data)

/-- Python `s.strip()`: remove leading and trailing whitespace. -/
def pyStrip (s : String) : String :=
  String.mk (((s.data.dropWhile Char.isWhitespace).reverse.dropWhile Char.isWhitespace).reverse)

/-- Python `s.startswith(pre)`. -/
def pyStartsWith (s pre : String) : Bool :=
  pre.data.isPrefixOf s.data

/-! ## Dict primitives (Python dict / OrderedDict as association list) -/

/-- Python `d.get(k)`: first entry with the given key. -/
def mapLookup {α : Type} (m : List (String × α)) (k : String) : Option α :=
  (m.find? (fun kv => kv.1 == k)).map (fun kv => kv.2)

/-- Python `d[k] = v`: update in place if the key is present (keeping its
position, as `OrderedDict.__setitem__` does), otherwise append at the end. -/
def mapSet {α : Type} (m : List (String × α)) (k : String) (v : α) : List (String × α) :=
  if m.any (fun kv => kv.1 == k) then
    m.map (fun kv => if kv.1 == k then (k, v) else kv)
  else
    m ++ [(k, v)]

/-- `OrderedDict.move_to_end(k)`: remove the entry for `k` and append it. -/
def odMoveToEnd {α : Type} (m : List (String × α)) (k : String) : List (String × α) :=
  match m.find? (fun kv => kv.1 == k) with
  | some kv => m.eraseP (fun kv => kv.1 == k) ++ [kv]
  | none => m

/-! ## Citation-marker stripping
(`openai_assistant_pipeline.get_latest_assistant_message`, line 213:
`re.sub(r"【\d+:\d+†[^】]+】", "", response_text)`).

The regex is deterministic: each quantified piece is followed by a character
it cannot itself match, so greedy matching coincides with maximal munch and
a match attempt at a position is a straight-line parse. -/

/-- Parse the body of a citation marker after the opening '【': one or more
digits, ':', one or more digits, '†', one or more non-'】' characters, '】'.
Returns the remainder of the input after the closing delimiter. -/
def parseCitationBody (l : List Char) : Option (List Char) :=
  let d1 := l.span Char.isDigit
  if d1.1.isEmpty then none else
  match d1.2 with
  | ':' :: r2 =>
    let d2 := r2.span Char.isDigit
    if d2.1.isEmpty then none else
    match d2.2 with
    | '†' :: r4 =>
      let b := r4.span (fun c => !(c == '】'))
      if b.1.isEmpty then none else
      match b.2 with
      | '】' :: r6 => some r6
      | _ => none
    | _ => none
  | _ => none

/-- One pass of `re.sub`: scan left to right, removing each leftmost match and
continuing after it; on a failed match attempt, emit one character and retry.
`fuel` bounds the recursion; `stripCit` supplies `l.length`, which suffices
because every step consumes at least one character. -/
def stripCitGo : Nat → List Char → List Char
  | 0, l => l
  | _ + 1, [] => []
  | fuel + 1, c :: rest =>
    if c = '【' then
      match parseCitationBody rest with
      | some r => stripCitGo fuel r
      | none => c :: stripCitGo fuel rest
    else c :: stripCitGo fuel rest

/-- Citation-marker removal on char lists. -/
def stripCit (l : List Char) : List Char :=
  stripCitGo l.length l

/-- Citation-marker removal on strings: the `re.sub` of the source. -/
def stripCitations (s : String) : String :=
  String.mk (stripCit s.data)

/-- Decidable test: no position of `l` starts a citation marker. -/
def noCitation : List Char → Bool
  | [] => true
  | c :: rest => (!(c == '【') || (parseCitationBody rest).isNone) && noCitation rest

/-- String form of `noCitation`. -/
def noCitationStr (s : String) : Bool :=
  noCitation s.data

/-! ## Thread registry (`assistant_thread_manager.py`) -/

/-- The persisted `nomor_to_thread` mapping. -/
abbrev ThreadMap := List (String × String)

/-- The WhatsApp transport suffix probed by the registry. -/
def waSuffix : String := "@s.whatsapp.net"

/-- The analytics namespace marker. -/
def analyticsMarker : String := "analytics_"

/-- `get_thread_id_for_nomor` (lines 27-79): strip the input, then probe, in
order: the stripped key itself; the key with the transport suffix stripped
(if present) or appended (if absent); unless the key already carries the
analytics marker, the marker-prefixed key, and (only when the key has no
transport suffix) the marker-prefixed suffixed key. -/
def getThreadIdForNomor (m : ThreadMap) (nomor : String) : Option String :=
  let c := pyStrip nomor
  match mapLookup m c with
  | some t => some t
  | none =>
    let step2 :=
      if pyContains c waSuffix then mapLookup m (takeBeforeAt c)
      else mapLookup m (c ++ waSuffix)
    match step2 with
    | some t => some t
    | none =>
      if pyStartsWith c analyticsMarker then none
      else
        match mapLookup m (analyticsMarker ++ c) with
        | some t => some t
        | none =>
          if pyContains c waSuffix then none
          else mapLookup m (analyticsMarker ++ c ++ waSuffix)

/-- `set_thread_id_for_nomor` (lines 85-87): store under the supplied key
exactly as given and persist. -/
def setThreadIdForNomor (m : ThreadMap) (nomor threadId : String) : ThreadMap :=
  mapSet m nomor threadId

/-- Probe a list of candidate keys in order, returning the first hit. -/
def firstHit (m : ThreadMap) : List String → Option String
  | [] => none
  | k :: ks =>
    match mapLookup m k with
    | some t => some t
    | none => firstHit m ks

/-- The candidate keys `get_thread_id_for_nomor` actually probes, in order,
read off the source's conditionals. -/
def codeCandidates (nomor : String) : List String :=
  let c := pyStrip nomor
  [c]
    ++ (if pyContains c waSuffix then [takeBeforeAt c] else [c ++ waSuffix])
    ++ (if pyStartsWith c analyticsMarker then []
        else [analyticsMarker ++ c]
          ++ (if pyContains c waSuffix then [] else [analyticsMarker ++ c ++ waSuffix]))

/-- Modelled from the spec: the candidate order the specification describes in
§4.1 — (1) the raw string as-is; (2) with transport suffix stripped, if
present; (3) with transport suffix appended, if absent; (4) the
secondary-namespace (analytics) marker applied to each of the variants
(1)–(3).  Used only to compare the specified order against the code. -/
def specCandidates (nomor : String) : List String :=
  let base := [nomor]
    ++ (if pyContains nomor waSuffix then [takeBeforeAt nomor] else [nomor ++ waSuffix])
  base ++ base.map (fun k => analyticsMarker ++ k)

/-- Modelled from the spec: registry lookup under the spec's candidate order. -/
def lookupBySpecCandidates (m : ThreadMap) (nomor : String) : Option String :=
  firstHit m (specCandidates nomor)

/-- The thread-resolution step of `send_message_and_get_response`
(lines 253-263): reuse the registry binding if any candidate resolves;
otherwise issue one remote thread creation (`createRes` is its result) and,
on success, persist the new binding under the originally supplied identity.
The final component counts remote thread-creation calls issued. -/
def resolveThread (createRes : Option String) (m : ThreadMap) (nomor : String) :
    Option String × ThreadMap × Nat :=
  match getThreadIdForNomor m nomor with
  | some t => (some t, m, 0)
  | none =>
    match createRes with
    | none => (none, m, 1)
    | some t => (some t, setThreadIdForNomor m nomor t, 1)

/-! ## Run polling (`openai_assistant_pipeline.wait_for_run_completion`).

Time is in quarter seconds: starting interval 2s = 8, cap 5s = 20, overall
timeout 120s = 480.  The growth `min(interval * 1.5, 5)` becomes
`min ((i * 3) / 2) 20`; every interval value the loop can reach (8, 12, 18,
20) has an exactly representable image, so the integer model is exact. -/

/-- Result of one poll of the run-status endpoint: a transport-level failure
(non-200 response, request timeout, or exception — the three source branches
behave identically) or a successfully fetched status string. -/
inductive PollResult where
  | transportError
  | status (s : String)
deriving DecidableEq

/-- How the wait ended.  The source returns the run data on `completed` and
`None` at three distinct sites (terminal remote failure, retry budget
exhausted, wall-clock timeout); the exit kind records which site, and
`waitForRunCompletion` below collapses them exactly as the source does.
`fuelOut` is an artifact of the bounded model, proven unreachable. -/
inductive WaitExit where
  | completed (s : String)
  | remoteFailure (s : String)
  | retryExhausted
  | timedOut
  | fuelOut
deriving DecidableEq

/-- Adaptive backoff step (line 160): `min(interval * 1.5, max_polling_interval)`,
in quarter seconds. -/
def pollGrow (i : Nat) : Nat :=
  min ((i * 3) / 2) 20

/-- Overall wall-clock timeout: 120 seconds, in quarter seconds. -/
def maxWaitQuarters : Nat := 480

/-- Consecutive transport-failure retry budget (`max_timeout_retries`). -/
def maxTimeoutRetries : Nat := 3

/-- The polling loop (lines 112-184).  `poll n` is the result of the `n`-th
status fetch, `elapsed`/`interval` are in quarter seconds, `tc` is
`timeout_count`.  On a transport failure the counter is incremented and the
loop sleeps the current interval and retries while `tc + 1 ≤ 3`, aborting
otherwise; on a successful fetch the counter resets to zero, `completed`
and the terminal failure statuses return, and any other status grows the
interval and sleeps.  Returns the exit kind and the number of polls made.
Each iteration advances `elapsed` by at least 8, so fuel 61 is never
exhausted from the initial state (`waitPoll_no_fuelOut`). -/
def waitPoll (poll : Nat → PollResult) :
    Nat → Nat → Nat → Nat → Nat → WaitExit × Nat
  | 0, _, elapsed, _, _ =>
    if elapsed < maxWaitQuarters then (.fuelOut, 0) else (.timedOut, 0)
  | fuel + 1, k, elapsed, interval, tc =>
    if elapsed < maxWaitQuarters then
      match poll k with
      | .transportError =>
        if tc + 1 ≤ maxTimeoutRetries then
          let r := waitPoll poll fuel (k + 1) (elapsed + interval) interval (tc + 1)
          (r.1, r.2 + 1)
        else (.retryExhausted, 1)
      | .status s =>
        if s = "completed" then (.completed s, 1)
        else if s = "failed" ∨ s = "cancelled" ∨ s = "expired" then (.remoteFailure s, 1)
        else
          let i2 := pollGrow interval
          let r := waitPoll poll fuel (k + 1) (elapsed + i2) i2 0
          (r.1, r.2 + 1)
    else (.timedOut, 0)

/-- The wait from its initial state: interval 2s, counter 0. -/
def waitForRun (poll : Nat → PollResult) : WaitExit × Nat :=
  waitPoll poll 61 0 0 8 0

/-- The value `wait_for_run_completion` actually returns: run data (modelled
by its status string) on completion, `None` on every other exit. -/
def waitForRunCompletion (poll : Nat → PollResult) : Option String :=
  match (waitForRun poll).1 with
  | .completed s => some s
  | _ => none

/-- A poll oracle from a finite script, padded with `in_progress`. -/
def pollOfList (l : List String) (n : Nat) : PollResult :=
  .status (l.getD n "in_progress")

/-! ## Thread messages (`get_latest_assistant_message`, lines 186-221) -/

/-- One item of a message's `content` array. -/
structure MsgContentItem where
  itemType : String
  textValue : Option String
deriving DecidableEq

/-- One message of the thread's message list. -/
structure ThreadMsg where
  role : String
  content : List MsgContentItem
deriving DecidableEq

/-- The inner `for content_item in content` loop: at the first item of type
`text`, the source returns — the cleaned text when the value is truthy, the
raw value (possibly `None` or `""`) otherwise.  `none` here means no text
item was found and scanning proceeds to the next message. -/
def extractText : List MsgContentItem → Option (Option String)
  | [] => none
  | it :: rest =>
    if it.itemType = "text" then
      some (match it.textValue with
            | some t => if t = "" then some t else some (stripCitations t)
            | none => none)
    else extractText rest

/-- The outer `for msg in messages` loop: the first assistant message with a
nonempty content list decides the result via `extractText`. -/
def scanMessages : List ThreadMsg → Option String
  | [] => none
  | m :: rest =>
    if m.role = "assistant" ∧ m.content ≠ [] then
      match extractText m.content with
      | some r => r
      | none => scanMessages rest
    else scanMessages rest

/-- `get_latest_assistant_message`: `fetch` is the messages-endpoint response
(`none` for a non-200 response or exception). -/
def getLatest (fetch : Option (List ThreadMsg)) : Option String :=
  match fetch with
  | none => none
  | some msgs => scanMessages msgs

/-! ## The remote environment consumed by `send_message_and_get_response` -/

/-- Result of one `POST /threads/{id}/messages` attempt. -/
inductive PostResult where
  | http200 (msgId : Option String)
  | http404
  | httpOther
  | exc
deriving DecidableEq

/-- Result of one `POST /threads/{id}/runs` attempt: a 200 response carrying
`run_data.get('id')`, or any failure (non-200 or exception). -/
inductive RunCreateResult where
  | ok (runId : Option String)
  | fail
deriving DecidableEq

/-- Result of one `GET /threads/{id}` existence check. -/
inductive CheckResult where
  | ok
  | notOk
  | exc
deriving DecidableEq

/-- Oracles for every remote interaction of one request, indexed by call
number where a call site can fire repeatedly.  `apiKey` and `assistantIdEnv`
are the `OPENAI_API_KEY` / `OPENAI_ASSISTANT_ID` environment variables. -/
structure Env where
  apiKey : Option String
  assistantIdEnv : Option String
  createThread : Nat → Option String
  threadCheck1 : CheckResult
  threadCheck2 : CheckResult
  post : Nat → PostResult
  post404Check : Nat
  runCreate : Nat → RunCreateResult
  poll : Nat → PollResult
  msgsFetch : Nat → Option (List ThreadMsg)

/-! ## Fixed reply strings of `send_message_and_get_response` -/

/-- Outer exception handler's reply when `get_headers` raises on a missing
(or empty, hence falsy) API key. -/
def unexpectedNoApiKey : String :=
  "Terjadi kesalahan tak terduga: OPENAI_API_KEY tidak ditemukan. Silakan coba lagi nanti."

/-- Reply when the assistant id resolves to a falsy string. -/
def konfigAsstId : String :=
  "Konfigurasi Assistant ID tidak valid. Silakan hubungi administrator."

/-- Reply to a falsy message. -/
def pesanTidakValid : String :=
  "Pesan tidak valid. Silakan kirim pesan teks."

/-- Reply when no thread exists and creation fails. -/
def gagalBuatThread : String :=
  "Gagal membuat thread baru. Silakan coba lagi nanti."

/-- Reply when the verify or 404-correction path cannot obtain a replacement
thread. -/
def masalahThread : String :=
  "Terjadi masalah dengan thread percakapan. Silakan coba lagi nanti."

/-- Reply when the message post never yields a truthy message id. -/
def gagalKirimPesan : String :=
  "Gagal mengirim pesan ke Assistant setelah beberapa percobaan. Silakan coba lagi nanti."

/-- Reply when run creation never yields a truthy run id. -/
def gagalBuatRun : String :=
  "Gagal membuat run dengan Assistant setelah beberapa percobaan. Silakan coba lagi nanti."

/-- The apologetic fallback when a failed wait leaves no retrievable message. -/
def fallbackTeknis : String :=
  "Maaf, saya sedang mengalami masalah teknis. Silakan coba lagi dalam beberapa saat."

/-- Reply when a completed run yields no truthy message after three fetches. -/
def tidakDapatRespons : String :=
  "Maaf, saya tidak dapat memberikan respons saat ini. Silakan coba lagi nanti."

/-- Default assistant id baked into `get_assistant_id`. -/
def defaultAssistantId : String := "asst_LYSlpGrksHr9KLLjGxKvoRO2"

/-! ## `send_message_and_get_response` (lines 223-448) -/

/-- The verify block (lines 268-307): a failed first check is retried once;
only two failed checks replace the thread via a fresh creation, persisting
the replacement; a creation failure there is an early return (`none` here,
mapped to `masalahThread`); any exception keeps the existing thread. -/
def verifyThread (env : Env) (nomor tid : String) (tm : ThreadMap) (cIdx : Nat) :
    Option (String × ThreadMap × Nat) :=
  match env.threadCheck1 with
  | .notOk =>
    match env.threadCheck2 with
    | .notOk =>
      match env.createThread cIdx with
      | none => none
      | some nt => some (nt, setThreadIdForNomor tm nomor nt, cIdx + 1)
    | _ => some (tid, tm, cIdx)
  | _ => some (tid, tm, cIdx)

/-- Outcome of the message-post loop. -/
inductive PostLoopRes where
  | sent (msgId : Option String) (tid : String) (tm : ThreadMap) (cIdx : Nat)
  | fail (tm : ThreadMap)

/-- The message-post retry loop (lines 315-374): up to three attempts; a 404
on the very first attempt re-checks the thread and, if the thread is truly
gone, replaces it once (an unobtainable replacement is the early return
`fail`, mapped to `masalahThread`); every other failure just consumes an
attempt.  A 200 breaks with the message id the response carried. -/
def postLoop (env : Env) (nomor : String) :
    Nat → Nat → String → ThreadMap → Nat → PostLoopRes
  | 0, _, tid, tm, cIdx => .sent none tid tm cIdx
  | fuel + 1, rc, tid, tm, cIdx =>
    match env.post rc with
    | .http200 mid => .sent mid tid tm cIdx
    | .http404 =>
      if rc = 0 then
        if env.post404Check = 404 then
          match env.createThread cIdx with
          | none => .fail tm
          | some nt =>
            postLoop env nomor fuel (rc + 1) nt (setThreadIdForNomor tm nomor nt) (cIdx + 1)
        else postLoop env nomor fuel (rc + 1) tid tm cIdx
      else postLoop env nomor fuel (rc + 1) tid tm cIdx
    | .httpOther => postLoop env nomor fuel (rc + 1) tid tm cIdx
    | .exc => postLoop env nomor fuel (rc + 1) tid tm cIdx

/-- The run-create retry loop (lines 384-407): up to three attempts, breaking
on the first 200 with that response's id; `none` when all attempts fail. -/
def runLoop (env : Env) : Nat → Nat → Option (Option String)
  | 0, _ => none
  | fuel + 1, attempt =>
    match env.runCreate attempt with
    | .ok rid => some rid
    | .fail => runLoop env fuel (attempt + 1)

/-- The message-fetch retry loop of the completed-run path (lines 429-437):
up to three fetches, stopping at the first truthy text. -/
def latestLoop (env : Env) : Nat → Nat → Option String
  | 0, _ => none
  | fuel + 1, idx =>
    match getLatest (env.msgsFetch idx) with
    | some s => if s = "" then latestLoop env fuel (idx + 1) else some s
    | none => latestLoop env fuel (idx + 1)

/-- The failed-run fallback (lines 416-425): return whatever latest assistant
message exists if truthy, else the fixed apologetic string. -/
def runFailureFallback (env : Env) (tm : ThreadMap) : String × ThreadMap :=
  match getLatest (env.msgsFetch 0) with
  | some s => if s = "" then (fallbackTeknis, tm) else (s, tm)
  | none => (fallbackTeknis, tm)

/-- Lines 412-444: wait for the run; on a non-completed wait take the
fallback path, otherwise fetch the reply with retries. -/
def afterWait (env : Env) (tm : ThreadMap) (completedRun : Option String) :
    String × ThreadMap :=
  match completedRun with
  | none => runFailureFallback env tm
  | some _ =>
    match latestLoop env 3 0 with
    | some s => (s, tm)
    | none => (tidakDapatRespons, tm)

/-- Lines 379-414: create the run (three attempts), bail out on a falsy run
id, then wait and resolve. -/
def startRunAndWait (env : Env) (tm : ThreadMap) : String × ThreadMap :=
  match runLoop env 3 0 with
  | some (some rid) =>
    if rid = "" then (gagalBuatRun, tm)
    else afterWait env tm (waitForRunCompletion env.poll)
  | some none => (gagalBuatRun, tm)
  | none => (gagalBuatRun, tm)

/-- Lines 376-378 joined with the run phase: a falsy message id after the
post loop is an error reply, otherwise the run is started. -/
def afterPost (env : Env) : PostLoopRes → String × ThreadMap
  | .fail tm => (masalahThread, tm)
  | .sent mid _ tm _ =>
    if pyTruthy mid then startRunAndWait env tm else (gagalKirimPesan, tm)

/-- `send_message_and_get_response`: the full orchestrator for one request.
Returns the reply string and the updated thread registry.  The construction
of the request headers is not modelled beyond the API-key truthiness check
(`get_headers` raises exactly when the key is falsy, and the raised error is
caught by the function's outer handler); the `Authorization`-starts-with-
`Bearer` check always passes by construction and is omitted; the posted
message body (`message.strip()`) is not observable through the oracles. -/
def sendMessageAndGetResponse (env : Env) (nomor message : String) (tm : ThreadMap) :
    String × ThreadMap :=
  if !(pyTruthy env.apiKey) then (unexpectedNoApiKey, tm)
  else
    let assistantId := env.assistantIdEnv.getD defaultAssistantId
    if assistantId = "" then (konfigAsstId, tm)
    else if message = "" then (pesanTidakValid, tm)
    else
      match resolveThread (env.createThread 0) tm nomor with
      | (none, tm1, _) => (gagalBuatThread, tm1)
      | (some tid0, tm1, cUsed) =>
        match verifyThread env nomor tid0 tm1 cUsed with
        | none => (masalahThread, tm1)
        | some (tid1, tm2, cIdx1) =>
          afterPost env (postLoop env nomor 3 0 tid1 tm2 cIdx1)

/-! ## The `/ask` handler (`app.py`, lines 196-445) and its idempotency cache -/

/-- `MAX_CACHE_SIZE` (app.py line 124). -/
def MAX_CACHE_SIZE : Nat := 1000

/-- `REQUEST_CACHE_TTL` in seconds (app.py line 125). -/
def REQUEST_CACHE_TTL : Nat := 300

/-- The JSON object returned by the handler.  Each field is optional because
different paths build objects with different key sets; `response = some none`
renders the JSON `"response": null` of the disabled-bot path. -/
structure RespPayload where
  response : Option (Option String) := none
  sender : Option String := none
  bot_disabled : Option Bool := none
  unanswered_count : Option Nat := none
  message : Option String := none
  request_id : Option String := none
  timestamp : Option Nat := none
  response_time : Option Nat := none
  error : Option String := none
deriving DecidableEq

/-- One entry of the request cache (app.py lines 308-312 / 422-426). -/
structure CacheEntry where
  response : RespPayload
  status_code : Nat
  timestamp : Nat
deriving DecidableEq

/-- The lazy expiry sweep (lines 229-233): drop entries older than the TTL.
An entry is expired exactly when `now - created > TTL`. -/
def cacheSweep (now : Nat) (c : List (String × CacheEntry)) : List (String × CacheEntry) :=
  c.filter (fun kv => decide (now - kv.2.timestamp ≤ REQUEST_CACHE_TTL))

/-- The store (lines 415-427): when at capacity, `popitem(last=False)` evicts
the head — the least recently inserted-or-looked-up entry — then the new
entry is written. -/
def cacheStore (k : String) (payload : RespPayload) (status now : Nat)
    (c : List (String × CacheEntry)) : List (String × CacheEntry) :=
  let c1 := if MAX_CACHE_SIZE ≤ c.length then c.tail else c
  mapSet c1 k ⟨payload, status, now⟩

/-- The JSON body of an `/ask` request (`request.json`); a missing field is
an absent key. -/
structure AskBody where
  sender : Option String := none
  message : Option String := none
  requestId : Option String := none
deriving DecidableEq

/-- One `/ask` request: the idempotency header, the body, whether the body
dict is empty (`if not data`), the generated fallback request id, and the
request's wall-clock second. -/
structure AskInput where
  hdrIdemKey : Option String := none
  bodyEmpty : Bool := false
  body : AskBody
  genId : String := "req_gen"
  now : Nat := 0
deriving DecidableEq

/-- The module-level mutable state the handler touches: the request cache,
the bot-gate dicts of `admin_routes`, and the thread registry. -/
structure AskState where
  cache : List (String × CacheEntry) := []
  botStatus : List (String × Bool) := []
  unanswered : List (String × Nat) := []
  threads : ThreadMap := []

/-- The handler's observable result: payload, HTTP status, and how many times
it invoked `send_message_and_get_response`. -/
structure AskOutput where
  payload : RespPayload
  status : Nat
  orchCalls : Nat
deriving DecidableEq

/-- Line 225: `request.headers.get('X-Idempotency-Key') or
request.json.get('request_id')`, normalised to `none` when falsy (the `if
idempotency_key:` guards). -/
def idemKeyOf (inp : AskInput) : Option String :=
  let v := if pyTruthy inp.hdrIdemKey then inp.hdrIdemKey else inp.body.requestId
  if pyTruthy v then v else none

/-- Line 217: `request.json.get('request_id', generated)`. -/
def requestIdOf (inp : AskInput) : String :=
  inp.body.requestId.getD inp.genId

/-- The fixed `message` field of the disabled-bot response. -/
def botDisabledMsg : String :=
  "Bot is disabled for this sender. Message logged for manual response."

/-- The body of the handler after the idempotency-cache check (lines
246-429); `key` is the truthy idempotency key, if any, and `s.cache` has
already been swept when it is present.  The analytics/WebSocket/chat-logging
side calls have no observable effect here and are omitted; the outer
`except` is unreachable in the model because every modelled step is total. -/
def askBody (env : Env) (inp : AskInput) (s : AskState) (reqId : String)
    (key : Option String) : AskOutput × AskState :=
  if inp.bodyEmpty then
    (⟨{ error := some "No data provided", request_id := some reqId }, 400, 0⟩, s)
  else
    match inp.body.sender, inp.body.message with
    | some snd, some msg =>
      if snd = "" ∨ msg = "" then
        (⟨{ error := some "Missing required fields", request_id := some reqId }, 400, 0⟩, s)
      else
        match mapLookup s.botStatus snd with
        | some false =>
          let newCount :=
            match mapLookup s.unanswered snd with
            | some n => n + 1
            | none => 1
          let pl : RespPayload :=
            { response := some none, sender := some snd, bot_disabled := some true,
              unanswered_count := some newCount, message := some botDisabledMsg,
              request_id := some reqId, timestamp := some (inp.now * 1000) }
          let cache2 :=
            match key with
            | some k => cacheStore k pl 200 inp.now s.cache
            | none => s.cache
          (⟨pl, 200, 0⟩,
           { s with unanswered := mapSet s.unanswered snd newCount, cache := cache2 })
        | _ =>
          if !(pyTruthy env.apiKey) then
            (⟨{ error := some "OpenAI API key tidak dikonfigurasi", sender := some snd }, 500, 0⟩, s)
          else if !(pyTruthy env.assistantIdEnv) then
            (⟨{ error := some "OpenAI Assistant ID tidak dikonfigurasi", sender := some snd }, 500, 0⟩, s)
          else
            let orc := sendMessageAndGetResponse env snd msg s.threads
            if orc.1 = "" then
              (⟨{ error := some "Tidak ada respons dari Assistant", sender := some snd }, 500, 1⟩,
               { s with threads := orc.2 })
            else
              let pl : RespPayload :=
                { response := some (some orc.1), sender := some snd,
                  response_time := some 0, request_id := some reqId,
                  timestamp := some (inp.now * 1000) }
              let cache2 :=
                match key with
                | some k => cacheStore k pl 200 inp.now s.cache
                | none => s.cache
              (⟨pl, 200, 1⟩, { s with threads := orc.2, cache := cache2 })
    | _, _ =>
      (⟨{ error := some "Missing required fields", request_id := some reqId }, 400, 0⟩, s)

/-- The `/ask` handler.  With a truthy idempotency key the cache is swept,
then a hit returns the cached payload and status verbatim after moving the
entry to most-recently-used position; otherwise the request is processed and
(on the cacheable paths) stored.  Without a truthy key the cache is neither
read, swept, nor written. -/
def ask (env : Env) (inp : AskInput) (s : AskState) : AskOutput × AskState :=
  let reqId := requestIdOf inp
  match idemKeyOf inp with
  | some k =>
    let c1 := cacheSweep inp.now s.cache
    match mapLookup c1 k with
    | some e =>
      (⟨e.response, e.status_code, 0⟩, { s with cache := odMoveToEnd c1 k })
    | none => askBody env inp { s with cache := c1 } reqId (some k)
  | none => askBody env inp s reqId none

/-- `admin_routes.send_message` (lines 262-282), restricted to its effect on
the bot gate: set `bot_status[recipient] = use_bot` and unconditionally reset
`unanswered_messages[recipient] = 0`. -/
def adminSendMessage (recipient : String) (useBot : Bool) (s : AskState) : AskState :=
  { s with botStatus := mapSet s.botStatus recipient useBot,
           unanswered := mapSet s.unanswered recipient 0 }

/-! ## Concrete instances used by witnesses -/

/-- An assistant message whose only content item is text `t`. -/
def mkAsstMsg (t : String) : ThreadMsg :=
  ⟨"assistant", [⟨"text", some t⟩]⟩

/-- An environment in which every remote call succeeds at once and the run
completes after `queued, in_progress, completed`. -/
def envHappy : Env :=
  { apiKey := some "sk-test"
    assistantIdEnv := some "asst-live"
    createThread := fun _ => some "th-1"
    threadCheck1 := .ok
    threadCheck2 := .ok
    post := fun _ => .http200 (some "m-1")
    post404Check := 200
    runCreate := fun _ => .ok (some "r-1")
    poll := pollOfList ["queued", "in_progress", "completed"]
    msgsFetch := fun _ => some [mkAsstMsg "Halo! 【3:4†doc】Ada yang bisa dibantu?"] }

/-- Like `envHappy`, but the run fails and the thread still holds an earlier
assistant message. -/
def envWaitFail : Env :=
  { envHappy with
    poll := fun _ => .status "failed"
    msgsFetch := fun _ => some [mkAsstMsg "Jawaban sebelumnya."] }

/-- An empty response payload. -/
def emptyPayload : RespPayload := {}

/-- A full request cache (for the eviction witness): `MAX_CACHE_SIZE` entries,
the oldest keyed `"old"`, a distinguished entry keyed `"hot"` next, and
filler entries keyed `"fill"`. -/
def fullCache : List (String × CacheEntry) :=
  ("old", ⟨emptyPayload, 200, 0⟩) :: ("hot", ⟨emptyPayload, 200, 5⟩)
    :: List.replicate (MAX_CACHE_SIZE - 2) ("fill", ⟨emptyPayload, 200, 9⟩)

/-- The fixed reply strings `send_message_and_get_response` can produce; every
result that is not one of these is a retrieved assistant message. -/
def fixedReplies : List String :=
  [unexpectedNoApiKey, konfigAsstId, pesanTidakValid, gagalBuatThread,
   masalahThread, gagalKirimPesan, gagalBuatRun, fallbackTeknis, tidakDapatRespons]

/-- What the orchestrator may hand its caller: one of the fixed fallback or
configuration-error strings, or a nonempty assistant message retrieved from
the thread. -/
def ReplySpec (env : Env) (r : String) : Prop :=
  r ∈ fixedReplies ∨ (r ≠ "" ∧ ∃ i, getLatest (env.msgsFetch i) = some r)

/-! ## Lemmas: association lists and the cache operations -/

theorem find?_append_right {α : Type} (l : List (String × α)) (k : String) (e : α)
    (h : ∀ kv ∈ l, (kv.1 == k) = false) :
    (l ++ [(k, e)]).find? (fun kv => kv.1 == k) = some (k, e) := by
  induction l with
  | nil => simp [List.find?]
  | cons hd tl ih =>
    have hhd := h hd (by simp)
    simp only [List.cons_append, List.find?, hhd]
    exact ih (fun kv hkv => h kv (by simp [hkv]))

theorem mapLookup_append_right {α : Type} (l : List (String × α)) (k : String) (e : α)
    (h : ∀ kv ∈ l, (kv.1 == k) = false) :
    mapLookup (l ++ [(k, e)]) k = some e := by
  simp [mapLookup, find?_append_right l k e h]

theorem find?_map_update {α : Type} (k : String) (v : α) :
    ∀ m : List (String × α), m.any (fun kv => kv.1 == k) = true →
    (m.map (fun kv => if kv.1 == k then (k, v) else kv)).find? (fun kv => kv.1 == k)
      = some (k, v) := by
  intro m
  induction m with
  | nil => simp
  | cons hd tl ih =>
    intro hany
    by_cases hhd : (hd.1 == k) = true
    · simp [List.find?, hhd]
    · have hhd' : (hd.1 == k) = false := by simpa using hhd
      have htl : tl.any (fun kv => kv.1 == k) = true := by
        rcases List.any_eq_true.mp hany with ⟨kv, hkv, hk⟩
        rcases List.mem_cons.mp hkv with rfl | hmem
        · exact absurd hk hhd
        · exact List.any_eq_true.mpr ⟨kv, hmem, hk⟩
      have hmap : (hd :: tl).map (fun kv => if kv.1 == k then (k, v) else kv)
          = hd :: tl.map (fun kv => if kv.1 == k then (k, v) else kv) := by
        have hne : hd.1 ≠ k := by simpa using hhd
        simp [hne]
      rw [hmap, List.find?_cons_of_neg _ (by simp [hhd'])]
      exact ih htl

theorem mapLookup_setSelf {α : Type} (m : List (String × α)) (k : String) (v : α) :
    mapLookup (mapSet m k v) k = some v := by
  unfold mapSet
  by_cases hany : m.any (fun kv => kv.1 == k) = true
  · rw [if_pos hany]
    unfold mapLookup
    rw [find?_map_update k v m hany]
    rfl
  · have hall : ∀ kv ∈ m, (kv.1 == k) = false := by
      intro kv hkv
      by_contra hc
      exact hany (List.any_eq_true.mpr ⟨kv, hkv, by simpa using hc⟩)
    simp only [if_neg hany]
    exact mapLookup_append_right m k v hall

theorem mapLookup_none_all {α : Type} (m : List (String × α)) (k : String)
    (h : mapLookup m k = none) : ∀ kv ∈ m, (kv.1 == k) = false := by
  intro kv hkv
  have hf : m.find? (fun kv => kv.1 == k) = none := by
    cases hf : m.find? (fun kv => kv.1 == k) with
    | none => rfl
    | some x => simp [mapLookup, hf] at h
  have := List.find?_eq_none.mp hf kv hkv
  simpa using this

theorem cacheStore_at_capacity (c : List (String × CacheEntry)) (k : String)
    (p : RespPayload) (st now : Nat)
    (hk : ∀ kv ∈ c, (kv.1 == k) = false) (hcap : MAX_CACHE_SIZE ≤ c.length) :
    cacheStore k p st now c = c.tail ++ [(k, ⟨p, st, now⟩)] := by
  have htl : ∀ kv ∈ c.tail, (kv.1 == k) = false :=
    fun kv hkv => hk kv ((List.tail_sublist c).mem hkv)
  have hany : c.tail.any (fun kv => kv.1 == k) = false := by
    rw [List.any_eq_false]
    intro kv hkv
    simp [htl kv hkv]
  simp [cacheStore, hcap, mapSet, hany]

theorem cacheStore_below_capacity (c : List (String × CacheEntry)) (k : String)
    (p : RespPayload) (st now : Nat)
    (hk : ∀ kv ∈ c, (kv.1 == k) = false) (hcap : c.length < MAX_CACHE_SIZE) :
    cacheStore k p st now c = c ++ [(k, ⟨p, st, now⟩)] := by
  have hany : c.any (fun kv => kv.1 == k) = false := by
    rw [List.any_eq_false]
    intro kv hkv
    simp [hk kv hkv]
  simp [cacheStore, Nat.not_le.mpr hcap, mapSet, hany]

/-! ## Lemmas: citation stripping -/

theorem parseCitationBody_suffix (l r : List Char) (h : parseCitationBody l = some r) :
    r <:+ l := by
  unfold parseCitationBody at h
  simp only [List.span_eq_take_drop] at h
  split at h
  · exact absurd h (by simp)
  · split at h
    case _ r2 e1 =>
      split at h
      · exact absurd h (by simp)
      · split at h
        case _ r4 e2 =>
          split at h
          · exact absurd h (by simp)
          · split at h
            case _ r6 e3 =>
              have h3 : '】' :: r6 <:+ r4 := by
                rw [← e3]; exact List.dropWhile_suffix _
              have h2 : '†' :: r4 <:+ r2 := by
                rw [← e2]; exact List.dropWhile_suffix _
              have h1 : ':' :: r2 <:+ l := by
                rw [← e1]; exact List.dropWhile_suffix _
              have hr : r = r6 := by simpa using h.symm
              subst hr
              exact (((List.suffix_cons _ _).trans h3).trans
                ((List.suffix_cons _ _).trans h2)).trans ((List.suffix_cons _ _).trans h1)
            case _ => exact absurd h (by simp)
        case _ => exact absurd h (by simp)
    case _ => exact absurd h (by simp)

theorem parseCitationBody_length (l r : List Char) (h : parseCitationBody l = some r) :
    r.length ≤ l.length :=
  (parseCitationBody_suffix l r h).length_le

theorem stripCitGo_nil (fuel : Nat) : stripCitGo fuel [] = [] := by
  cases fuel <;> rfl

theorem stripCitGo_cons_some (f : Nat) (c : Char) (rest r : List Char)
    (hc : c = '【') (hp : parseCitationBody rest = some r) :
    stripCitGo (f + 1) (c :: rest) = stripCitGo f r := by
  subst hc
  simp only [stripCitGo, hp, if_true]

theorem stripCitGo_cons_none (f : Nat) (c : Char) (rest : List Char)
    (hc : c = '【') (hp : parseCitationBody rest = none) :
    stripCitGo (f + 1) (c :: rest) = c :: stripCitGo f rest := by
  subst hc
  simp only [stripCitGo, hp, if_true]

theorem stripCitGo_cons_neg (f : Nat) (c : Char) (rest : List Char)
    (hc : ¬ c = '【') :
    stripCitGo (f + 1) (c :: rest) = c :: stripCitGo f rest := by
  simp only [stripCitGo, if_neg hc]

theorem stripCitGo_fuel : ∀ f1 : Nat, ∀ f2 : Nat, ∀ l : List Char,
    l.length ≤ f1 → l.length ≤ f2 → stripCitGo f1 l = stripCitGo f2 l := by
  intro f1
  induction f1 with
  | zero =>
    intro f2 l h1 _
    have : l = [] := List.length_eq_zero.mp (Nat.le_zero.mp h1)
    subst this
    simp [stripCitGo_nil]
  | succ f ih =>
    intro f2 l h1 h2
    cases l with
    | nil => simp [stripCitGo_nil]
    | cons c rest =>
      cases f2 with
      | zero => simp at h2
      | succ g =>
        have hr : rest.length ≤ f := by simpa using h1
        have hg : rest.length ≤ g := by simpa using h2
        by_cases hc : c = '【'
        · cases hp : parseCitationBody rest with
          | some r =>
            rw [stripCitGo_cons_some f c rest r hc hp, stripCitGo_cons_some g c rest r hc hp]
            have hlen := parseCitationBody_length rest r hp
            exact ih g r (hlen.trans hr) (hlen.trans hg)
          | none =>
            rw [stripCitGo_cons_none f c rest hc hp, stripCitGo_cons_none g c rest hc hp,
              ih g rest hr hg]
        · rw [stripCitGo_cons_neg f c rest hc, stripCitGo_cons_neg g c rest hc, ih g rest hr hg]

theorem stripCitGo_noCitation : ∀ fuel : Nat, ∀ l : List Char,
    noCitation l = true → l.length ≤ fuel → stripCitGo fuel l = l := by
  intro fuel
  induction fuel with
  | zero => intro l _ _; rfl
  | succ f ih =>
    intro l hnc hlen
    cases l with
    | nil => rfl
    | cons c rest =>
      have hr : rest.length ≤ f := by simpa using hlen
      rw [noCitation, Bool.and_eq_true] at hnc
      obtain ⟨hhead, htail⟩ := hnc
      by_cases hc : c = '【'
      · have hnone : parseCitationBody rest = none := by
          subst hc
          simpa using hhead
        rw [stripCitGo_cons_none f c rest hc hnone, ih rest htail hr]
      · rw [stripCitGo_cons_neg f c rest hc, ih rest htail hr]

theorem count_zero_noCitation : ∀ l : List Char,
    l.count '【' = 0 → noCitation l = true := by
  intro l
  induction l with
  | nil => intro _; rfl
  | cons c rest ih =>
    intro hcount
    have hc : ¬ c = '【' := by
      intro hc
      subst hc
      simp [List.count_cons] at hcount
    have hrest : rest.count '【' = 0 := by
      simp [List.count_cons] at hcount
      omega
    simp [noCitation, hc, ih hrest]

theorem stripCit_of_noCitation (l : List Char) (h : noCitation l = true) :
    stripCit l = l :=
  stripCitGo_noCitation l.length l h (Nat.le_refl _)

theorem stripCit_cons_neg (c : Char) (rest : List Char) (hc : ¬ c = '【') :
    stripCit (c :: rest) = c :: stripCit rest :=
  stripCitGo_cons_neg rest.length c rest hc

theorem stripCitGo_idem : ∀ fuel : Nat, ∀ l : List Char,
    l.length ≤ fuel → l.count '【' ≤ 1 →
    stripCit (stripCitGo fuel l) = stripCitGo fuel l := by
  intro fuel
  induction fuel with
  | zero =>
    intro l hlen _
    have : l = [] := List.length_eq_zero.mp (Nat.le_zero.mp hlen)
    subst this
    simp [stripCit, stripCitGo_nil]
  | succ f ih =>
    intro l hlen hcount
    cases l with
    | nil => simp [stripCit, stripCitGo_nil]
    | cons c rest =>
      have hr : rest.length ≤ f := by simpa using hlen
      by_cases hc : c = '【'
      · have hrest0 : rest.count '【' = 0 := by
          subst hc
          simp [List.count_cons] at hcount
          omega
        cases hp : parseCitationBody rest with
        | some r =>
          have hrc : r.count '【' = 0 :=
            Nat.le_zero.mp (hrest0 ▸ (parseCitationBody_suffix rest r hp).sublist.count_le '【')
          have hnc := count_zero_noCitation r hrc
          have hlr := parseCitationBody_length rest r hp
          rw [stripCitGo_cons_some f c rest r hc hp,
            stripCitGo_noCitation f r hnc (hlr.trans hr)]
          exact stripCit_of_noCitation r hnc
        | none =>
          have hnc := count_zero_noCitation rest hrest0
          rw [stripCitGo_cons_none f c rest hc hp, stripCitGo_noCitation f rest hnc hr]
          have hncl : noCitation (c :: rest) = true := by
            simp [noCitation, hp, hnc]
          exact stripCit_of_noCitation (c :: rest) hncl
      · have hcr : rest.count '【' ≤ 1 := by
          simpa [List.count_cons, hc] using hcount
        rw [stripCitGo_cons_neg f c rest hc,
          stripCit_cons_neg c (stripCitGo f rest) hc, ih rest hr hcr]

/-! ## Lemmas: the polling loop -/

theorem waitPoll_count_le (poll : Nat → PollResult) :
    ∀ fuel k e i tc : Nat, (waitPoll poll fuel k e i tc).2 ≤ fuel := by
  intro fuel
  induction fuel with
  | zero =>
    intro k e i tc
    simp only [waitPoll]
    split <;> simp
  | succ f ih =>
    intro k e i tc
    simp only [waitPoll]
    split
    · split
      · split
        · simpa using Nat.succ_le_succ (ih (k + 1) (e + i) i (tc + 1))
        · omega
      · split
        · omega
        · split
          · omega
          · simpa using Nat.succ_le_succ (ih (k + 1) (e + pollGrow i) (pollGrow i) 0)
    · omega

theorem pollGrow_ge (i : Nat) (hi : 8 ≤ i) : 8 ≤ pollGrow i := by
  unfold pollGrow
  omega

theorem waitPoll_no_fuelOut (poll : Nat → PollResult) :
    ∀ fuel k e i tc : Nat, 8 ≤ i → maxWaitQuarters ≤ e + 8 * fuel →
    (waitPoll poll fuel k e i tc).1 ≠ WaitExit.fuelOut := by
  intro fuel
  induction fuel with
  | zero =>
    intro k e i tc hi he
    simp only [waitPoll]
    have : ¬ e < maxWaitQuarters := by omega
    simp [this]
  | succ f ih =>
    intro k e i tc hi he
    simp only [waitPoll]
    split
    · split
      · split
        · simpa using ih (k + 1) (e + i) i (tc + 1) hi (by omega)
        · simp
      · split
        · simp
        · split
          · simp
          · have hg := pollGrow_ge i hi
            simpa using ih (k + 1) (e + pollGrow i) (pollGrow i) 0 hg (by omega)
    · simp

theorem waitPoll_completed (poll : Nat → PollResult) :
    ∀ fuel k e i tc : Nat, ∀ s : String,
    (waitPoll poll fuel k e i tc).1 = WaitExit.completed s →
    s = "completed" ∧ ∃ n, poll n = PollResult.status s := by
  intro fuel
  induction fuel with
  | zero =>
    intro k e i tc s h
    simp only [waitPoll] at h
    split at h <;> simp at h
  | succ f ih =>
    intro k e i tc s h
    simp only [waitPoll] at h
    split at h
    · split at h
      · split at h
        · exact ih (k + 1) (e + i) i (tc + 1) s (by simpa using h)
        · simp at h
      · next s' heq =>
        split at h
        · next hcomp =>
          simp at h
          subst h
          exact ⟨hcomp, k, heq⟩
        · split at h
          · simp at h
          · exact ih (k + 1) (e + pollGrow i) (pollGrow i) 0 s (by simpa using h)
    · simp at h

theorem waitPoll_retryExhausted (poll : Nat → PollResult) :
    ∀ fuel k e i tc ex c, tc ≤ 3 →
    (∀ j, j < tc → poll (k - 1 - j) = PollResult.transportError) →
    waitPoll poll fuel k e i tc = (ex, c) → ex = WaitExit.retryExhausted →
    4 ≤ tc + c ∧ ∀ j, j < 4 → poll (k + c - 1 - j) = PollResult.transportError := by
  intro fuel
  induction fuel with
  | zero =>
    intro k e i tc ex c _ _ h hex
    subst hex
    simp only [waitPoll] at h
    split at h <;> simp_all
  | succ f ih =>
    intro k e i tc ex c htc hinv h hex
    subst hex
    have hmtr : maxTimeoutRetries = 3 := rfl
    simp only [waitPoll] at h
    split at h
    · split at h
      · next hpk =>
        split at h
        · next hretry =>
          rw [Prod.mk.injEq] at h
          obtain ⟨h1, h2⟩ := h
          have hinv' : ∀ j, j < tc + 1 →
              poll ((k + 1) - 1 - j) = PollResult.transportError := by
            intro j hj
            rcases Nat.eq_zero_or_pos j with rfl | hjp
            · simpa using hpk
            · have hj' : j - 1 < tc := by omega
              have := hinv (j - 1) hj'
              rwa [show (k + 1) - 1 - j = k - 1 - (j - 1) from by omega]
          obtain ⟨hge, hjs⟩ := ih (k + 1) (e + i) i (tc + 1)
            (waitPoll poll f (k + 1) (e + i) i (tc + 1)).1
            (waitPoll poll f (k + 1) (e + i) i (tc + 1)).2
            (by omega) hinv' rfl h1
          refine ⟨by omega, ?_⟩
          intro j hj
          have hx := hjs j hj
          rwa [show (k + 1) + (waitPoll poll f (k + 1) (e + i) i (tc + 1)).2 - 1 - j
                = k + c - 1 - j from by omega] at hx
        · next hretry =>
          rw [Prod.mk.injEq] at h
          obtain ⟨h1, h2⟩ := h
          have htc3 : tc = 3 := by omega
          refine ⟨by omega, ?_⟩
          intro j hj
          rcases Nat.eq_zero_or_pos j with rfl | hjp
          · rw [show k + c - 1 - 0 = k from by omega]
            exact hpk
          · have hj' : j - 1 < tc := by omega
            have := hinv (j - 1) hj'
            rwa [show k + c - 1 - j = k - 1 - (j - 1) from by omega]
      · next s' hpk =>
        split at h
        · rw [Prod.mk.injEq] at h
          simp at h
        · split at h
          · rw [Prod.mk.injEq] at h
            simp at h
          · rw [Prod.mk.injEq] at h
            obtain ⟨h1, h2⟩ := h
            obtain ⟨hge, hjs⟩ := ih (k + 1) (e + pollGrow i) (pollGrow i) 0
              (waitPoll poll f (k + 1) (e + pollGrow i) (pollGrow i) 0).1
              (waitPoll poll f (k + 1) (e + pollGrow i) (pollGrow i) 0).2
              (by omega) (by intro j hj; omega) rfl h1
            refine ⟨by omega, ?_⟩
            intro j hj
            have hx := hjs j hj
            rwa [show (k + 1) + (waitPoll poll f (k + 1) (e + pollGrow i) (pollGrow i) 0).2 - 1 - j
                  = k + c - 1 - j from by omega] at hx
    · rw [Prod.mk.injEq] at h
      simp at h

/-! ## Lemmas: the orchestrator always resolves to a safe reply -/

theorem latestLoop_spec (env : Env) :
    ∀ fuel idx s, latestLoop env fuel idx = some s →
    s ≠ "" ∧ ∃ i, getLatest (env.msgsFetch i) = some s := by
  intro fuel
  induction fuel with
  | zero => intro idx s h; simp [latestLoop] at h
  | succ f ih =>
    intro idx s h
    simp only [latestLoop] at h
    split at h
    · next s' heq =>
      split at h
      · exact ih (idx + 1) s h
      · next hne =>
        rw [Option.some_inj] at h
        subst h
        exact ⟨hne, idx, heq⟩
    · exact ih (idx + 1) s h

theorem runFailureFallback_spec (env : Env) (tm : ThreadMap) :
    ReplySpec env (runFailureFallback env tm).1 := by
  unfold runFailureFallback
  split
  · next s heq =>
    split
    · left; simp [fixedReplies]
    · next hne => exact Or.inr ⟨hne, 0, heq⟩
  · left; simp [fixedReplies]

theorem afterWait_spec (env : Env) (tm : ThreadMap) (cr : Option String) :
    ReplySpec env (afterWait env tm cr).1 := by
  unfold afterWait
  split
  · exact runFailureFallback_spec env tm
  · split
    · next s heq => exact Or.inr (latestLoop_spec env 3 0 s heq)
    · left; simp [fixedReplies]

theorem startRunAndWait_spec (env : Env) (tm : ThreadMap) :
    ReplySpec env (startRunAndWait env tm).1 := by
  unfold startRunAndWait
  split
  · split
    · left; simp [fixedReplies]
    · exact afterWait_spec env tm _
  · left; simp [fixedReplies]
  · left; simp [fixedReplies]

theorem afterPost_spec (env : Env) (res : PostLoopRes) :
    ReplySpec env (afterPost env res).1 := by
  unfold afterPost
  split
  · left; simp [fixedReplies]
  · split
    · exact startRunAndWait_spec env _
    · left; simp [fixedReplies]

theorem sendMessage_spec (env : Env) (nomor message : String) (tm : ThreadMap) :
    ReplySpec env (sendMessageAndGetResponse env nomor message tm).1 := by
  unfold sendMessageAndGetResponse
  by_cases h1 : (!(pyTruthy env.apiKey)) = true
  · rw [if_pos h1]
    left; simp [fixedReplies]
  · rw [if_neg h1]
    by_cases h2 : env.assistantIdEnv.getD defaultAssistantId = ""
    · rw [if_pos h2]
      left; simp [fixedReplies]
    · rw [if_neg h2]
      by_cases h3 : message = ""
      · rw [if_pos h3]
        left; simp [fixedReplies]
      · rw [if_neg h3]
        rcases hres : resolveThread (env.createThread 0) tm nomor with ⟨ot, tm1, cu⟩
        cases ot with
        | none =>
          left; simp [fixedReplies]
        | some tid =>
          dsimp only
          cases hv : verifyThread env nomor tid tm1 cu with
          | none =>
            left; simp [fixedReplies]
          | some trip =>
            rcases trip with ⟨tid1, tm2, cIdx1⟩
            exact afterPost_spec env _

theorem fixedReplies_ne_empty : ∀ x ∈ fixedReplies, x ≠ "" := by
  decide

theorem sendMessage_ne_empty (env : Env) (nomor message : String) (tm : ThreadMap) :
    (sendMessageAndGetResponse env nomor message tm).1 ≠ "" := by
  rcases sendMessage_spec env nomor message tm with hmem | ⟨hne, _⟩
  · exact fixedReplies_ne_empty _ hmem
  · exact hne

/-! ## Lemmas: thread registry -/

theorem getThread_eq_firstHit (m : ThreadMap) (nomor : String) :
    getThreadIdForNomor m nomor = firstHit m (codeCandidates nomor) := by
  unfold getThreadIdForNomor codeCandidates
  by_cases hsuf : pyContains (pyStrip nomor) waSuffix = true
  · by_cases hana : pyStartsWith (pyStrip nomor) analyticsMarker = true
    · cases h1 : mapLookup m (pyStrip nomor) <;>
        cases h2 : mapLookup m (takeBeforeAt (pyStrip nomor)) <;>
          simp [firstHit, h1, h2, hsuf, hana]
    · cases h1 : mapLookup m (pyStrip nomor) <;>
        cases h2 : mapLookup m (takeBeforeAt (pyStrip nomor)) <;>
          cases h3 : mapLookup m (analyticsMarker ++ pyStrip nomor) <;>
            simp [firstHit, h1, h2, h3, hsuf, hana]
  · by_cases hana : pyStartsWith (pyStrip nomor) analyticsMarker = true
    · cases h1 : mapLookup m (pyStrip nomor) <;>
        cases h2 : mapLookup m (pyStrip nomor ++ waSuffix) <;>
          simp [firstHit, h1, h2, hsuf, hana]
    · cases h1 : mapLookup m (pyStrip nomor) <;>
        cases h2 : mapLookup m (pyStrip nomor ++ waSuffix) <;>
          cases h3 : mapLookup m (analyticsMarker ++ pyStrip nomor) <;>
            cases h4 : mapLookup m (analyticsMarker ++ pyStrip nomor ++ waSuffix) <;>
              simp [firstHit, h1, h2, h3, h4, hsuf, hana]

theorem getThread_after_set (m : ThreadMap) (nomor t : String)
    (hstrip : pyStrip nomor = nomor) :
    getThreadIdForNomor (mapSet m nomor t) nomor = some t := by
  unfold getThreadIdForNomor
  rw [hstrip]
  simp only [mapLookup_setSelf]

/-! ## Lemmas: the `/ask` handler paths -/

theorem cacheStore_fresh (c : List (String × CacheEntry)) (k : String)
    (p : RespPayload) (st now : Nat)
    (hk : ∀ kv ∈ c, (kv.1 == k) = false) :
    ∃ c', cacheStore k p st now c = c' ++ [(k, ⟨p, st, now⟩)]
      ∧ ∀ kv ∈ c', (kv.1 == k) = false := by
  by_cases hcap : MAX_CACHE_SIZE ≤ c.length
  · exact ⟨c.tail, cacheStore_at_capacity c k p st now hk hcap,
      fun kv h => hk kv ((List.tail_sublist c).mem h)⟩
  · exact ⟨c, cacheStore_below_capacity c k p st now hk (Nat.not_le.mp hcap), hk⟩

theorem cacheStore_lookup_after_sweep (c : List (String × CacheEntry)) (k : String)
    (p : RespPayload) (st t now2 : Nat)
    (hall : ∀ kv ∈ c, (kv.1 == k) = false)
    (hfresh : now2 - t ≤ REQUEST_CACHE_TTL) :
    mapLookup (cacheSweep now2 (cacheStore k p st t c)) k
      = some ⟨p, st, t⟩ := by
  obtain ⟨c', heq, hall'⟩ := cacheStore_fresh c k p st t hall
  rw [heq]
  unfold cacheSweep
  rw [List.filter_append]
  have hone : List.filter
      (fun kv => decide (now2 - kv.2.timestamp ≤ REQUEST_CACHE_TTL))
      [(k, (⟨p, st, t⟩ : CacheEntry))] = [(k, ⟨p, st, t⟩)] := by
    simp only [List.filter_cons, List.filter_nil]
    have : now2 - t ≤ REQUEST_CACHE_TTL := hfresh
    simp
    omega
  rw [hone]
  exact mapLookup_append_right _ k _
    (fun kv h => hall' kv (List.mem_of_mem_filter h))

theorem ask_cache_hit (env : Env) (inp : AskInput) (s : AskState) (k : String)
    (e : CacheEntry)
    (hk : idemKeyOf inp = some k)
    (hhit : mapLookup (cacheSweep inp.now s.cache) k = some e) :
    (ask env inp s).1 = ⟨e.response, e.status_code, 0⟩ := by
  simp only [ask, hk, hhit]

theorem ask_disabled (env : Env) (inp : AskInput) (s : AskState) (u m : String)
    (hnokey : idemKeyOf inp = none)
    (hbody : inp.bodyEmpty = false)
    (hsnd : inp.body.sender = some u) (hu : u ≠ "")
    (hmsg : inp.body.message = some m) (hm : m ≠ "")
    (hdis : mapLookup s.botStatus u = some false) :
    ask env inp s =
      (⟨{ response := some none, sender := some u, bot_disabled := some true,
          unanswered_count := some (match mapLookup s.unanswered u with
            | some n => n + 1
            | none => 1),
          message := some botDisabledMsg,
          request_id := some (requestIdOf inp),
          timestamp := some (inp.now * 1000) }, 200, 0⟩,
       { s with unanswered := mapSet s.unanswered u (match mapLookup s.unanswered u with
            | some n => n + 1
            | none => 1) }) := by
  simp [ask, hnokey, askBody, hbody, hsnd, hmsg, hdis, hu, hm]

theorem ask_enabled_store (env : Env) (inp : AskInput) (s : AskState) (k u m : String)
    (hk : idemKeyOf inp = some k)
    (hmiss : mapLookup (cacheSweep inp.now s.cache) k = none)
    (hbody : inp.bodyEmpty = false)
    (hsnd : inp.body.sender = some u) (hu : u ≠ "")
    (hmsg : inp.body.message = some m) (hm : m ≠ "")
    (hbot : mapLookup s.botStatus u ≠ some false)
    (hapi : pyTruthy env.apiKey = true)
    (hasst : pyTruthy env.assistantIdEnv = true) :
    ask env inp s =
      (⟨{ response := some (some (sendMessageAndGetResponse env u m s.threads).1),
          sender := some u, response_time := some 0,
          request_id := some (requestIdOf inp),
          timestamp := some (inp.now * 1000) }, 200, 1⟩,
       { s with
          cache := cacheStore k
            { response := some (some (sendMessageAndGetResponse env u m s.threads).1),
              sender := some u, response_time := some 0,
              request_id := some (requestIdOf inp),
              timestamp := some (inp.now * 1000) } 200 inp.now
            (cacheSweep inp.now s.cache),
          threads := (sendMessageAndGetResponse env u m s.threads).2 }) := by
  have hne := sendMessage_ne_empty env u m s.threads
  cases hb : mapLookup s.botStatus u with
  | none =>
    simp [ask, hk, hmiss, askBody, hbody, hsnd, hmsg, hb, hu, hm, hapi, hasst, hne]
  | some b =>
    cases b with
    | false => exact absurd hb hbot
    | true =>
      simp [ask, hk, hmiss, askBody, hbody, hsnd, hmsg, hb, hu, hm, hapi, hasst, hne]

/-! ## Claim theorems -/

/-- C5 counterexample: citation stripping as implemented (a single `re.sub`
pass) is not idempotent on every string.  In `"【12【1:2†a】:34†x】"` removing
the inner marker splices `"【12"` and `":34†x】"` into a new well-formed
marker, which a second pass removes. -/
theorem C5_strip_idempotent_counterexample :
    stripCitations (stripCitations "【12【1:2†a】:34†x】")
      ≠ stripCitations "【12【1:2†a】:34†x】" := by
  decide

/-- C5 (amended): citation-marker stripping is a pure total function; text
containing no marker passes through unchanged; the spec's example strips as
stated; and stripping is idempotent for every input containing at most one
opening delimiter (idempotence fails in general: removing a marker can
splice the surrounding text into a new marker). -/
theorem C5_citation_stripping :
    (∀ s : String, noCitationStr s = true → stripCitations s = s)
    ∧ stripCitations "Answer 【12:34†source】 more text" = "Answer  more text"
    ∧ (∀ s : String, s.data.count '【' ≤ 1 →
        stripCitations (stripCitations s) = stripCitations s) := by
  refine ⟨?_, by decide, ?_⟩
  · intro s h
    unfold stripCitations
    rw [stripCit_of_noCitation s.data h]
  · intro s h
    exact congrArg String.mk (stripCitGo_idem s.data.length s.data (Nat.le_refl _) h)

/-- C5 witness: the amended idempotence applied to a concrete string with a
single marker. -/
theorem C5_citation_stripping_witness :
    stripCitations (stripCitations "abc【12:34†x】def") = stripCitations "abc【12:34†x】def" :=
  C5_citation_stripping.2.2 "abc【12:34†x】def" (by decide)

/-- C6 counterexample: the claimed candidate order applies the analytics
marker to the suffix-stripped variant, but for a suffixed identity the code
never probes that key: with only `"analytics_628"` bound, the spec's order
finds it for input `"628@s.whatsapp.net"` while the code finds nothing. -/
theorem C6_candidate_order_counterexample :
    lookupBySpecCandidates [("analytics_628", "T")] "628@s.whatsapp.net" = some "T"
    ∧ getThreadIdForNomor [("analytics_628", "T")] "628@s.whatsapp.net" = none := by
  constructor
  · decide
  · decide

/-- C6 (amended): lookup probes, in order: the stripped raw key; the key with
the transport suffix stripped (if present) or appended (if absent); then,
unless the key already starts with the analytics marker, the marker applied
to the raw key and — only when the raw key has no transport suffix — to the
suffix-appended key; the marker is never applied to the suffix-stripped
variant.  Consequently, with `"628123"` bound to T, lookups of `"628123"`
and `"628123@s.whatsapp.net"` both return T, `"analytics_628123"` resolves
to no binding, and get-or-create for it returns the freshly created thread,
not T. -/
theorem C6_candidate_priority_order :
    (∀ m : ThreadMap, ∀ nomor : String,
      getThreadIdForNomor m nomor = firstHit m (codeCandidates nomor))
    ∧ (∀ T : String, getThreadIdForNomor [("628123", T)] "628123" = some T)
    ∧ (∀ T : String, getThreadIdForNomor [("628123", T)] "628123@s.whatsapp.net" = some T)
    ∧ (∀ T : String, getThreadIdForNomor [("628123", T)] "analytics_628123" = none)
    ∧ (∀ T t2 : String, t2 ≠ T →
        (resolveThread (some t2) [("628123", T)] "analytics_628123").1 = some t2
        ∧ (resolveThread (some t2) [("628123", T)] "analytics_628123").1 ≠ some T) := by
  refine ⟨getThread_eq_firstHit, fun T => rfl, fun T => rfl, fun T => rfl, ?_⟩
  intro T t2 hne
  refine ⟨rfl, ?_⟩
  intro hcontra
  have h0 : (resolveThread (some t2) [("628123", T)] "analytics_628123").1 = some t2 := rfl
  rw [h0] at hcontra
  exact hne (Option.some_inj.mp hcontra)

/-- C6 witness: the amended claim applied at concrete thread handles. -/
theorem C6_candidate_priority_order_witness :
    (resolveThread (some "TH2") [("628123", "TH1")] "analytics_628123").1 ≠ some "TH1" :=
  (C6_candidate_priority_order.2.2.2.2 "TH1" "TH2" (by decide)).2

/-- C2 counterexample: for the whitespace-padded identity `" 628"` the first
call persists the binding under the raw key, but lookup strips the key
before probing, so a second call misses every candidate and issues a second
remote thread creation, returning a different handle. -/
theorem C2_single_thread_counterexample :
    (resolveThread (some "t1") [] " 628").2.2 = 1
    ∧ (resolveThread (some "t2") ((resolveThread (some "t1") [] " 628").2.1) " 628").2.2 = 1
    ∧ (resolveThread (some "t2") ((resolveThread (some "t1") [] " 628").2.1) " 628").1
        = some "t2"
    ∧ (resolveThread (some "t2") ((resolveThread (some "t1") [] " 628").2.1) " 628").1
        ≠ some "t1" := by
  decide

/-- C2 (amended): for every identity equal to its whitespace-stripped form
and bound under no candidate, get-or-create called twice in sequence issues
exactly one remote thread-creation call: the first call persists the new
binding under the originally supplied identity and returns the new handle;
the second call resolves that binding, returns the same handle, creates
nothing, and leaves the registry unchanged. -/
theorem C2_single_thread_per_identity (m : ThreadMap) (nomor t : String)
    (cr2 : Option String)
    (hstrip : pyStrip nomor = nomor)
    (hmiss : getThreadIdForNomor m nomor = none) :
    (resolveThread (some t) m nomor).1 = some t
    ∧ (resolveThread (some t) m nomor).2.2 = 1
    ∧ mapLookup (resolveThread (some t) m nomor).2.1 nomor = some t
    ∧ (resolveThread cr2 (resolveThread (some t) m nomor).2.1 nomor).1 = some t
    ∧ (resolveThread cr2 (resolveThread (some t) m nomor).2.1 nomor).2.2 = 0
    ∧ (resolveThread cr2 (resolveThread (some t) m nomor).2.1 nomor).2.1
        = (resolveThread (some t) m nomor).2.1 := by
  have h1 : resolveThread (some t) m nomor
      = (some t, setThreadIdForNomor m nomor t, 1) := by
    unfold resolveThread
    rw [hmiss]
  have h2 : getThreadIdForNomor (setThreadIdForNomor m nomor t) nomor = some t :=
    getThread_after_set m nomor t hstrip
  rw [h1]
  refine ⟨rfl, rfl, mapLookup_setSelf m nomor t, ?_, ?_, ?_⟩ <;>
    simp [resolveThread, h2]

/-- C2 witness: the amended claim at a concrete fresh identity. -/
theorem C2_single_thread_per_identity_witness :
    (resolveThread (some "TH2") ((resolveThread (some "TH") [] "628").2.1) "628").2.2 = 0 :=
  (C2_single_thread_per_identity [] "628" "TH" (some "TH2") (by decide) (by decide)).2.2.2.2.1

/-- C7 counterexample: the wait's return value does not distinguish the
retry-exhausted/timeout aborts from a terminal remote failure — the source
returns `None` at all three sites, so the outcomes are identical. -/
theorem C7_timeout_outcome_counterexample :
    waitForRunCompletion (fun _ => PollResult.transportError)
      = waitForRunCompletion (fun _ => PollResult.status "failed") := by
  decide

/-- C7 (amended): when the wait aborts because the transport-failure retry
budget is exhausted, because the wall clock runs out, or because the run
reached a terminal remote failure, it returns one and the same outcome
(`None`): callers cannot tell these cases apart.  Only completion is
distinguishable, returning the run data.  Internally the source exits at
three distinct return sites, which the model records as distinct exit
kinds before collapsing them. -/
theorem C7_failure_outcomes_collapse :
    waitForRunCompletion (fun _ => PollResult.status "failed") = none
    ∧ waitForRunCompletion (fun _ => PollResult.transportError) = none
    ∧ waitForRunCompletion (fun _ => PollResult.status "in_progress") = none
    ∧ waitForRunCompletion (pollOfList ["queued", "in_progress", "completed"])
        = some "completed"
    ∧ (waitForRun (fun _ => PollResult.status "failed")).1 = WaitExit.remoteFailure "failed"
    ∧ (waitForRun (fun _ => PollResult.transportError)).1 = WaitExit.retryExhausted
    ∧ (waitForRun (fun _ => PollResult.status "in_progress")).1 = WaitExit.timedOut := by
  refine ⟨by decide, by decide, by decide, by decide, by decide, by decide, by decide⟩

/-- C3: a run polled as `queued, in_progress, completed` completes after
exactly three polls and the orchestrator returns the (single) final
assistant text; a sequence ending in `failed`/`cancelled`/`expired` exits as
a remote failure, which the caller sees as `None`, taking the fallback path;
a sequence that never reaches a terminal status yields `None` with a number
of polls bounded by 61 — the loop never polls indefinitely, and the fuel
bound of the model is never the binding constraint; and the poll interval
grows geometrically, 2s → 3s → 4.5s → 5s (capped), i.e. 8 → 12 → 18 → 20
quarter seconds. -/
theorem C3_run_polling_termination :
    (waitForRun (pollOfList ["queued", "in_progress", "completed"])
        = (WaitExit.completed "completed", 3)
      ∧ (sendMessageAndGetResponse envHappy "628" "halo" []).1
          = "Halo! Ada yang bisa dibantu?")
    ∧ (∀ s : String, s = "failed" ∨ s = "cancelled" ∨ s = "expired" →
        waitForRun (pollOfList ["queued", s]) = (WaitExit.remoteFailure s, 2)
        ∧ waitForRunCompletion (pollOfList ["queued", s]) = none)
    ∧ (∀ poll : Nat → PollResult,
        (∀ n : Nat, ∀ s : String, poll n = PollResult.status s →
          s ≠ "completed" ∧ s ≠ "failed" ∧ s ≠ "cancelled" ∧ s ≠ "expired") →
        waitForRunCompletion poll = none
        ∧ (waitForRun poll).2 ≤ 61
        ∧ (waitForRun poll).1 ≠ WaitExit.fuelOut)
    ∧ (pollGrow 8 = 12 ∧ pollGrow 12 = 18 ∧ pollGrow 18 = 20 ∧ pollGrow 20 = 20) := by
  refine ⟨⟨by decide, by decide⟩, ?_, ?_, by decide⟩
  · intro s h
    rcases h with rfl | rfl | rfl <;> exact ⟨by decide, by decide⟩
  · intro poll h
    refine ⟨?_, waitPoll_count_le poll 61 0 0 8 0,
      waitPoll_no_fuelOut poll 61 0 0 8 0 (by omega) (by decide)⟩
    unfold waitForRunCompletion
    cases hex : (waitForRun poll).1 with
    | completed s =>
      obtain ⟨hs, n, hn⟩ := waitPoll_completed poll 61 0 0 8 0 s hex
      exact absurd hs (h n s hn).1
    | remoteFailure s => rfl
    | retryExhausted => rfl
    | timedOut => rfl
    | fuelOut => rfl

/-- C3 witness: the never-terminal case applied to a constant `queued`
oracle. -/
theorem C3_run_polling_termination_witness :
    waitForRunCompletion (fun _ => PollResult.status "queued") = none :=
  (C3_run_polling_termination.2.2.1 (fun _ => PollResult.status "queued")
    (fun n s hs => by
      injection hs with h
      subst h
      exact ⟨by decide, by decide, by decide, by decide⟩)).1

/-- C10: the transport-failure counter is reset on every successful status
fetch, so the retry budget of 3 bounds only consecutive failures: a
retry-exhausted abort after `c` polls implies the last four polls were all
transport failures (hence `c ≥ 4`); an oracle with no four consecutive
transport failures can never exhaust the budget; and an oracle alternating
one failure with one success runs all the way to the wall-clock timeout. -/
theorem C10_consecutive_failure_budget :
    (∀ poll : Nat → PollResult, ∀ c : Nat,
      waitForRun poll = (WaitExit.retryExhausted, c) →
      4 ≤ c ∧ ∀ j, j < 4 → poll (c - 1 - j) = PollResult.transportError)
    ∧ (∀ poll : Nat → PollResult,
      (∀ n : Nat, ∃ j, j < 4 ∧ poll (n + j) ≠ PollResult.transportError) →
      (waitForRun poll).1 ≠ WaitExit.retryExhausted)
    ∧ (waitForRun (fun n => if n % 2 = 0 then PollResult.transportError
          else PollResult.status "in_progress")).1 = WaitExit.timedOut := by
  have hmain : ∀ poll : Nat → PollResult, ∀ c : Nat,
      waitForRun poll = (WaitExit.retryExhausted, c) →
      4 ≤ c ∧ ∀ j, j < 4 → poll (c - 1 - j) = PollResult.transportError := by
    intro poll c h
    obtain ⟨hge, hjs⟩ := waitPoll_retryExhausted poll 61 0 0 8 0
      WaitExit.retryExhausted c (by omega) (by intro j hj; omega) h rfl
    refine ⟨by omega, ?_⟩
    intro j hj
    have := hjs j hj
    rwa [show 0 + c - 1 - j = c - 1 - j from by omega] at this
  refine ⟨hmain, ?_, by decide⟩
  intro poll h hex
  have hpair : waitForRun poll = (WaitExit.retryExhausted, (waitForRun poll).2) := by
    rw [← hex]
  obtain ⟨hge, hjs⟩ := hmain poll (waitForRun poll).2 hpair
  obtain ⟨j, hj, hne⟩ := h ((waitForRun poll).2 - 4)
  have := hjs (3 - j) (by omega)
  rw [show (waitForRun poll).2 - 1 - (3 - j) = (waitForRun poll).2 - 4 + j from by omega]
    at this
  exact hne this

/-- C10 witness: an alternating failure/success oracle never exhausts the
retry budget. -/
theorem C10_consecutive_failure_budget_witness :
    (waitForRun (fun n => if n % 2 = 0 then PollResult.transportError
        else PollResult.status "in_progress")).1 ≠ WaitExit.retryExhausted := by
  apply C10_consecutive_failure_budget.2.1
  intro n
  by_cases hn : n % 2 = 0
  · refine ⟨1, by omega, ?_⟩
    have h1 : (n + 1) % 2 = 1 := by omega
    simp [h1]
  · refine ⟨0, by omega, ?_⟩
    simp [hn]

/-- C8: at capacity (`MAX_CACHE_SIZE` entries), storing a fresh key first
evicts the head of the ordered cache — the least recently inserted-or-looked-
up entry — and appends the new entry; and an entry that was just looked up
(and hence moved to the most-recently-used end) is not the one evicted by a
subsequent store, remaining in the cache. -/
theorem C8_lru_eviction (c : List (String × CacheEntry)) (j k : String) (e : CacheEntry)
    (p : RespPayload) (st now now2 : Nat)
    (hk : ∀ kv ∈ c, (kv.1 == k) = false)
    (hcap : MAX_CACHE_SIZE ≤ c.length)
    (hj : c.find? (fun kv => kv.1 == j) = some (j, e)) :
    cacheStore k p st now c = c.tail ++ [(k, ⟨p, st, now⟩)]
    ∧ (j, e) ∈ cacheStore k p st now2 (odMoveToEnd c j) := by
  have hmax : MAX_CACHE_SIZE = 1000 := rfl
  refine ⟨cacheStore_at_capacity c k p st now hk hcap, ?_⟩
  have hmem : (j, e) ∈ c := List.mem_of_find?_eq_some hj
  have hjk : ((j, e).1 == k) = false := hk _ hmem
  have hc2 : odMoveToEnd c j = c.eraseP (fun kv => kv.1 == j) ++ [(j, e)] := by
    unfold odMoveToEnd
    rw [hj]
  have hpj : ((fun kv => kv.1 == j) (j, e)) = true := by simp
  have hlen : (c.eraseP (fun kv => kv.1 == j)).length = c.length - 1 :=
    List.length_eraseP_of_mem hmem hpj
  have hlen2 : (c.eraseP (fun kv => kv.1 == j) ++ [(j, e)]).length = c.length := by
    simp only [List.length_append, List.length_singleton, hlen]
    omega
  have hk2 : ∀ kv ∈ c.eraseP (fun kv => kv.1 == j) ++ [(j, e)], (kv.1 == k) = false := by
    intro kv hkv
    rcases List.mem_append.mp hkv with h | h
    · exact hk kv ((List.eraseP_sublist c).mem h)
    · rw [List.mem_singleton.mp h]
      exact hjk
  have hstore := cacheStore_at_capacity (c.eraseP (fun kv => kv.1 == j) ++ [(j, e)])
    k p st now2 hk2 (by rw [hlen2]; exact hcap)
  rw [hc2, hstore]
  have hne : c.eraseP (fun kv => kv.1 == j) ≠ [] := by
    intro hnil
    rw [hnil] at hlen
    simp at hlen
    omega
  cases herase : c.eraseP (fun kv => kv.1 == j) with
  | nil => exact absurd herase hne
  | cons x xs => simp

/-- C8 witness: a concrete cache at capacity; the looked-up `"hot"` entry is
moved to the end and survives the eviction that storing `"new"` triggers. -/
theorem C8_lru_eviction_witness :
    cacheStore "new" emptyPayload 200 7 fullCache
        = fullCache.tail ++ [("new", ⟨emptyPayload, 200, 7⟩)]
    ∧ ("hot", (⟨emptyPayload, 200, 5⟩ : CacheEntry))
        ∈ cacheStore "new" emptyPayload 200 9 (odMoveToEnd fullCache "hot") := by
  refine C8_lru_eviction fullCache "hot" "new" ⟨emptyPayload, 200, 5⟩
    emptyPayload 200 7 9 ?_ ?_ ?_
  · intro kv hkv
    rcases List.mem_cons.mp hkv with rfl | hkv
    · decide
    · rcases List.mem_cons.mp hkv with rfl | hkv
      · decide
      · rw [(List.eq_of_mem_replicate hkv :
          kv = ("fill", ⟨emptyPayload, 200, 9⟩))]
        decide
  · have hlen : fullCache.length = MAX_CACHE_SIZE := by
      unfold fullCache
      simp only [List.length_cons, List.length_replicate]
      decide
    exact Nat.le_of_eq hlen.symm
  · rfl

/-- C4: the orchestrator is total (the embedding returns a `String` on every
input — no exception reaches the caller) and never hands its caller a raw
remote error: every result is either one of the fixed fallback/configuration
strings or a (nonempty, citation-stripped) assistant message fetched from
the thread; and whenever the run wait does not end in completion — a
terminal remote failure, retry exhaustion, or the overall timeout — the
result is exactly the latest assistant message if a truthy one exists on
the thread, and the fixed apologetic fallback string otherwise. -/
theorem C4_orchestrator_error_containment :
    (∀ env : Env, ∀ nomor message : String, ∀ tm : ThreadMap,
      ReplySpec env (sendMessageAndGetResponse env nomor message tm).1)
    ∧ (∀ env : Env, ∀ nomor message tid mid rid : String, ∀ tm : ThreadMap,
      pyTruthy env.apiKey = true →
      env.assistantIdEnv.getD defaultAssistantId ≠ "" →
      message ≠ "" →
      (resolveThread (env.createThread 0) tm nomor).1 = some tid →
      env.threadCheck1 = CheckResult.ok →
      env.post 0 = PostResult.http200 (some mid) →
      mid ≠ "" →
      env.runCreate 0 = RunCreateResult.ok (some rid) →
      rid ≠ "" →
      waitForRunCompletion env.poll = none →
      (sendMessageAndGetResponse env nomor message tm).1
        = match getLatest (env.msgsFetch 0) with
          | some s => if s = "" then fallbackTeknis else s
          | none => fallbackTeknis) := by
  refine ⟨sendMessage_spec, ?_⟩
  intro env nomor message tid mid rid tm hapi hasst hmsg hres hchk hpost hmid hrun hrid hwait
  unfold sendMessageAndGetResponse
  rw [if_neg (by simp [hapi]), if_neg hasst, if_neg hmsg]
  rcases hres3 : resolveThread (env.createThread 0) tm nomor with ⟨ot, tm1, cu⟩
  have hot : ot = some tid := by
    have := hres
    rw [hres3] at this
    exact this
  subst hot
  dsimp only
  have hver : verifyThread env nomor tid tm1 cu = some (tid, tm1, cu) := by
    unfold verifyThread
    rw [hchk]
  rw [hver]
  dsimp only
  have hploop : postLoop env nomor 3 0 tid tm1 cu = .sent (some mid) tid tm1 cu := by
    unfold postLoop
    rw [hpost]
  rw [hploop]
  unfold afterPost
  dsimp only
  rw [if_pos (show pyTruthy (some mid) = true by simp [pyTruthy, hmid])]
  unfold startRunAndWait
  have hrl : runLoop env 3 0 = some (some rid) := by
    unfold runLoop
    rw [hrun]
  rw [hrl]
  dsimp only
  rw [if_neg hrid, hwait]
  unfold afterWait runFailureFallback
  dsimp only
  cases hml : getLatest (env.msgsFetch 0) with
  | none => rfl
  | some s =>
    dsimp only
    by_cases hs : s = ""
    · rw [if_pos hs, if_pos hs]
    · rw [if_neg hs, if_neg hs]

/-- C4 witness: a failed run with an earlier assistant message on the thread
resolves to that message. -/
theorem C4_orchestrator_error_containment_witness :
    (sendMessageAndGetResponse envWaitFail "628" "halo" []).1 = "Jawaban sebelumnya." := by
  have h := C4_orchestrator_error_containment.2 envWaitFail "628" "halo" "th-1" "m-1" "r-1" []
    (by decide) (by decide) (by decide) (by decide) rfl rfl (by decide) rfl (by decide)
    (by decide)
  rw [h]
  decide

/-- C1: if a request carrying idempotency key `k` (header or `request_id`)
misses the cache and runs the enabled-bot path to completion, then a second
request carrying `k` that arrives while the stored entry is within the
300-second TTL receives the cached payload and status code verbatim, and
`send_message_and_get_response` is invoked exactly once across the two
requests (once by the first, never by the second). -/
theorem C1_idempotent_replay (env : Env) (inp1 inp2 : AskInput) (s0 : AskState)
    (k u m : String)
    (hk1 : idemKeyOf inp1 = some k)
    (hk2 : idemKeyOf inp2 = some k)
    (hmiss : mapLookup (cacheSweep inp1.now s0.cache) k = none)
    (hbody : inp1.bodyEmpty = false)
    (hsnd : inp1.body.sender = some u) (hu : u ≠ "")
    (hmsg : inp1.body.message = some m) (hm : m ≠ "")
    (hbot : mapLookup s0.botStatus u ≠ some false)
    (hapi : pyTruthy env.apiKey = true)
    (hasst : pyTruthy env.assistantIdEnv = true)
    (hfresh : inp2.now - inp1.now ≤ REQUEST_CACHE_TTL) :
    (ask env inp2 (ask env inp1 s0).2).1.payload = (ask env inp1 s0).1.payload
    ∧ (ask env inp2 (ask env inp1 s0).2).1.status = (ask env inp1 s0).1.status
    ∧ (ask env inp1 s0).1.orchCalls = 1
    ∧ (ask env inp2 (ask env inp1 s0).2).1.orchCalls = 0 := by
  have h1 := ask_enabled_store env inp1 s0 k u m hk1 hmiss hbody hsnd hu hmsg hm
    hbot hapi hasst
  have hall : ∀ kv ∈ cacheSweep inp1.now s0.cache, (kv.1 == k) = false :=
    mapLookup_none_all _ k hmiss
  have hcache : (ask env inp1 s0).2.cache
      = cacheStore k
          { response := some (some (sendMessageAndGetResponse env u m s0.threads).1),
            sender := some u, response_time := some 0,
            request_id := some (requestIdOf inp1),
            timestamp := some (inp1.now * 1000) } 200 inp1.now
          (cacheSweep inp1.now s0.cache) := by
    rw [h1]
  have hlk2 : mapLookup (cacheSweep inp2.now (ask env inp1 s0).2.cache) k
      = some ⟨{ response := some (some (sendMessageAndGetResponse env u m s0.threads).1),
                sender := some u, response_time := some 0,
                request_id := some (requestIdOf inp1),
                timestamp := some (inp1.now * 1000) }, 200, inp1.now⟩ := by
    rw [hcache]
    exact cacheStore_lookup_after_sweep _ k _ 200 inp1.now inp2.now hall hfresh
  have h2 := ask_cache_hit env inp2 (ask env inp1 s0).2 k
    ⟨{ response := some (some (sendMessageAndGetResponse env u m s0.threads).1),
       sender := some u, response_time := some 0,
       request_id := some (requestIdOf inp1),
       timestamp := some (inp1.now * 1000) }, 200, inp1.now⟩ hk2 hlk2
  refine ⟨?_, ?_, ?_, ?_⟩
  · rw [h2, h1]
  · rw [h2, h1]
  · rw [h1]
  · rw [h2]

/-- C1 witness: a concrete duplicate pair 100 seconds apart replays the
cached payload and invokes the orchestrator once in total. -/
theorem C1_idempotent_replay_witness :
    (ask envHappy { hdrIdemKey := some "abc", body := {}, genId := "g2", now := 1100 }
        (ask envHappy
          { hdrIdemKey := some "abc",
            body := { sender := some "628", message := some "halo" },
            genId := "g1", now := 1000 } {}).2).1.payload
      = (ask envHappy
          { hdrIdemKey := some "abc",
            body := { sender := some "628", message := some "halo" },
            genId := "g1", now := 1000 } {}).1.payload
    ∧ (ask envHappy
        { hdrIdemKey := some "abc",
          body := { sender := some "628", message := some "halo" },
          genId := "g1", now := 1000 } {}).1.orchCalls = 1
    ∧ (ask envHappy { hdrIdemKey := some "abc", body := {}, genId := "g2", now := 1100 }
        (ask envHappy
          { hdrIdemKey := some "abc",
            body := { sender := some "628", message := some "halo" },
            genId := "g1", now := 1000 } {}).2).1.orchCalls = 0 := by
  have h := C1_idempotent_replay envHappy
    { hdrIdemKey := some "abc",
      body := { sender := some "628", message := some "halo" },
      genId := "g1", now := 1000 }
    { hdrIdemKey := some "abc", body := {}, genId := "g2", now := 1100 }
    {} "abc" "628" "halo"
    (by decide) (by decide) (by decide) (by decide) (by decide) (by decide)
    (by decide) (by decide) (by decide) (by decide) (by decide) (by decide)
  exact ⟨h.1, h.2.2.1, h.2.2.2⟩

/-- C9: for an identity whose bot gate is disabled and whose unanswered
counter starts absent or zero, three consecutive inbound messages produce
unanswered counts 1, 2, 3 in the responses, each with a null reply and
without invoking the orchestrator; one admin reply resets the counter to
zero unconditionally (for any state); and a further inbound message while
still disabled produces count 1, again without invoking the orchestrator. -/
theorem C9_bot_gate_counting (env : Env) (inp : AskInput) (s0 : AskState) (u m : String)
    (hnokey : idemKeyOf inp = none)
    (hbody : inp.bodyEmpty = false)
    (hsnd : inp.body.sender = some u) (hu : u ≠ "")
    (hmsg : inp.body.message = some m) (hm : m ≠ "")
    (hdis : mapLookup s0.botStatus u = some false)
    (hcnt : mapLookup s0.unanswered u = none ∨ mapLookup s0.unanswered u = some 0) :
    ((ask env inp s0).1.payload.unanswered_count = some 1
      ∧ (ask env inp s0).1.payload.response = some none
      ∧ (ask env inp s0).1.orchCalls = 0)
    ∧ (ask env inp (ask env inp s0).2).1.payload.unanswered_count = some 2
    ∧ (ask env inp (ask env inp (ask env inp s0).2).2).1.payload.unanswered_count = some 3
    ∧ mapLookup (adminSendMessage u false
        (ask env inp (ask env inp (ask env inp s0).2).2).2).unanswered u = some 0
    ∧ ((ask env inp (adminSendMessage u false
          (ask env inp (ask env inp (ask env inp s0).2).2).2)).1.payload.unanswered_count
        = some 1
      ∧ (ask env inp (adminSendMessage u false
          (ask env inp (ask env inp (ask env inp s0).2).2).2)).1.orchCalls = 0)
    ∧ (∀ s : AskState, ∀ r : String, ∀ b : Bool,
        mapLookup (adminSendMessage r b s).unanswered r = some 0) := by
  have h1 := ask_disabled env inp s0 u m hnokey hbody hsnd hu hmsg hm hdis
  have e1 : (match mapLookup s0.unanswered u with
      | some n => n + 1
      | none => 1) = 1 := by
    rcases hcnt with h | h <;> rw [h]
  rw [e1] at h1
  have h2 := ask_disabled env inp { s0 with unanswered := mapSet s0.unanswered u 1 }
    u m hnokey hbody hsnd hu hmsg hm hdis
  have e2 : (match mapLookup ({ s0 with
        unanswered := mapSet s0.unanswered u 1 } : AskState).unanswered u with
      | some n => n + 1
      | none => 1) = 2 := by
    show (match mapLookup (mapSet s0.unanswered u 1) u with
      | some n => n + 1
      | none => 1) = 2
    rw [mapLookup_setSelf]
  rw [e2] at h2
  have h3 := ask_disabled env inp
    { s0 with unanswered := mapSet (mapSet s0.unanswered u 1) u 2 }
    u m hnokey hbody hsnd hu hmsg hm hdis
  have e3 : (match mapLookup ({ s0 with
        unanswered := mapSet (mapSet s0.unanswered u 1) u 2 } : AskState).unanswered u with
      | some n => n + 1
      | none => 1) = 3 := by
    show (match mapLookup (mapSet (mapSet s0.unanswered u 1) u 2) u with
      | some n => n + 1
      | none => 1) = 3
    rw [mapLookup_setSelf]
  rw [e3] at h3
  have hadm : mapLookup (adminSendMessage u false
      { s0 with unanswered := mapSet (mapSet (mapSet s0.unanswered u 1) u 2) u 3 }).unanswered u
      = some 0 :=
    mapLookup_setSelf _ u 0
  have hbot5 : mapLookup (adminSendMessage u false
      { s0 with unanswered := mapSet (mapSet (mapSet s0.unanswered u 1) u 2) u 3 }).botStatus u
      = some false :=
    mapLookup_setSelf _ u false
  have h5 := ask_disabled env inp (adminSendMessage u false
      { s0 with unanswered := mapSet (mapSet (mapSet s0.unanswered u 1) u 2) u 3 })
    u m hnokey hbody hsnd hu hmsg hm hbot5
  have e5 : (match mapLookup (adminSendMessage u false
        { s0 with
          unanswered := mapSet (mapSet (mapSet s0.unanswered u 1) u 2) u 3 }).unanswered u with
      | some n => n + 1
      | none => 1) = 1 := by
    rw [hadm]
  rw [e5] at h5
  refine ⟨⟨?_, ?_, ?_⟩, ?_, ?_, ?_, ⟨?_, ?_⟩, ?_⟩
  · rw [h1]
  · rw [h1]
  · rw [h1]
  · rw [h1, h2]
  · rw [h1, h2, h3]
  · rw [h1, h2, h3]
    exact hadm
  · rw [h1, h2, h3, h5]
  · rw [h1, h2, h3, h5]
  · intro s r b
    exact mapLookup_setSelf _ r 0

/-- C9 witness: the first inbound message for a concrete disabled identity
reports unanswered count 1. -/
theorem C9_bot_gate_counting_witness :
    (ask envHappy
        { body := { sender := some "u1", message := some "halo" }, genId := "g", now := 5 }
        { botStatus := [("u1", false)] }).1.payload.unanswered_count = some 1 :=
  (C9_bot_gate_counting envHappy
    { body := { sender := some "u1", message := some "halo" }, genId := "g", now := 5 }
    { botStatus := [("u1", false)] } "u1" "halo"
    (by decide) (by decide) (by decide) (by decide) (by decide) (by decide)
    (by decide) (Or.inl (by decide))).1.1
